import Mathlib

/-!
Verification of the deepmd-kit input-compatibility module
(`deepmd/utils/compat.py`): a shallow embedding of the configuration
document model and of every function of the module, followed by theorems
settling the specification claims.

Documents are JSON/YAML-shaped values; mappings are embedded as ordered
association lists (Python dicts preserve insertion order).  The scalar
number type is a parameter `R`: structural claims are settled over any
`R`, the closed-form learning-rate claim instantiates `R := ℝ`.
Python exceptions are embedded as `Except PyErr`; in-place mutation is
embedded by returning, alongside the function result, the state of the
caller-passed document after the call (`StepOut.state`), since a raised
exception can leave a partially mutated document behind.
-/

namespace Compat

/-- A JSON/YAML-shaped configuration value over a scalar number type `R`. -/
inductive JVal (R : Type) where
  | b (x : Bool)
  | num (x : R)
  | s (x : String)
  | obj (o : List (String × JVal R))
  | arr (a : List (JVal R))

/-- A configuration mapping: an ordered association list, as a Python dict. -/
abbrev JObj (R : Type) := List (String × JVal R)

/-- Python exceptions raised by the module. -/
inductive PyErr where
  | keyError (k : String)
  | runtimeError (msg : String)
  | typeError (msg : String)
  | attributeError (msg : String)
  deriving DecidableEq

/-- Deprecation warnings emitted by the module, tagged by emitting site;
`v0v1` and `v1v2` carry the file name mentioned in the message, if any. -/
inductive Warn where
  | v0v1 (fname : Option String)
  | v1v2 (fname : Option String)
  | numbTest
  deriving DecidableEq

/-- Observable outcome of one call to a migration entry point: the return
value (or raised exception), the state of the caller-passed document after
the call (Python mutates in place), the warnings emitted, and the dump
written to a file path, if any. -/
structure StepOut (R : Type) where
  ret : Except PyErr (JObj R)
  state : JObj R
  warns : List Warn
  dumped : Option (String × JObj R)

/-- `o[k]` lookup on a Python dict: the value at the first matching key. -/
def jget : JObj R → String → Option (JVal R)
  | [], _ => none
  | (k', v) :: t, k => if k' = k then some v else jget t k

/-- `k in o` membership test on a Python dict. -/
def hasKey (o : JObj R) (k : String) : Bool :=
  (jget o k).isSome

/-- `o.pop(k)` / `del o[k]`: remove the entry with key `k`. -/
def erasek : JObj R → String → JObj R
  | [], _ => []
  | (k', v) :: t, k => if k' = k then erasek t k else (k', v) :: erasek t k

/-- `o[k] = v` on a Python dict: replace in place if the key is present,
append otherwise. -/
def setk : JObj R → String → JVal R → JObj R
  | [], k, v => [(k, v)]
  | (k', v') :: t, k, v =>
      if k' = k then (k, v) :: erasek t k else (k', v') :: setk t k v

theorem jget_erasek (o : JObj R) (k k' : String) :
    jget (erasek o k) k' = if k = k' then none else jget o k' := by
  induction o with
  | nil => simp [erasek, jget]
  | cons p t ih =>
    obtain ⟨a, b⟩ := p
    simp only [erasek]
    by_cases h1 : a = k
    · subst h1
      rw [if_pos rfl, ih]
      by_cases h3 : a = k'
      · subst h3; simp [jget]
      · simp [jget, h3]
    · rw [if_neg h1]
      simp only [jget]
      by_cases h2 : a = k'
      · subst h2
        have hk : ¬ k = a := fun h => h1 h.symm
        simp [hk]
      · simp [h2, ih]

theorem jget_setk (o : JObj R) (k : String) (v : JVal R) (k' : String) :
    jget (setk o k v) k' = if k = k' then some v else jget o k' := by
  induction o with
  | nil => simp [setk, jget]
  | cons p t ih =>
    obtain ⟨a, b⟩ := p
    simp only [setk]
    by_cases h1 : a = k
    · subst h1
      rw [if_pos rfl]
      simp only [jget, jget_erasek]
      by_cases h3 : a = k'
      · simp [h3]
      · simp [h3]
    · rw [if_neg h1]
      simp only [jget]
      by_cases h2 : a = k'
      · subst h2
        have hk : ¬ k = a := fun h => h1 h.symm
        simp [hk]
      · simp [h2, ih]

theorem hasKey_setk (o : JObj R) (k : String) (v : JVal R) (k' : String) :
    hasKey (setk o k v) k' = (k = k' || hasKey o k') := by
  by_cases h : k = k' <;> simp [hasKey, jget_setk, h]

theorem hasKey_erasek (o : JObj R) (k k' : String) :
    hasKey (erasek o k) k' = (!(k = k') && hasKey o k') := by
  by_cases h : k = k' <;> simp [hasKey, jget_erasek, h]

/-- `_jcopy(src, dst, keys)`: copy each listed key present in `src` into
`dst`, silently skipping absent keys. -/
def _jcopy (src : JObj R) : JObj R → List String → JObj R
  | dst, [] => dst
  | dst, k :: t =>
      match jget src k with
      | some v => _jcopy src (setk dst k v) t
      | none => _jcopy src dst t

theorem jget_jcopy_not_mem (src : JObj R) (ks : List String) (k : String)
    (hk : k ∉ ks) : ∀ dst : JObj R, jget (_jcopy src dst ks) k = jget dst k := by
  induction ks with
  | nil => intro dst; rfl
  | cons a t ih =>
    intro dst
    have hak : ¬ a = k := fun h => hk (h ▸ List.mem_cons_self a t)
    have hkt : k ∉ t := fun h => hk (List.mem_cons_of_mem a h)
    cases hv : jget src a with
    | none => simp [_jcopy, hv, ih hkt]
    | some v =>
      simp only [_jcopy, hv]
      rw [ih hkt, jget_setk]
      simp [hak]

theorem jget_jcopy_mem (src : JObj R) (ks : List String) (k : String)
    (hk : k ∈ ks) :
    ∀ dst : JObj R, jget (_jcopy src dst ks) k = (jget src k).or (jget dst k) := by
  induction ks with
  | nil => cases hk
  | cons a t ih =>
    intro dst
    by_cases hak : a = k
    · subst hak
      cases hv : jget src a with
      | some v =>
        by_cases hkt : a ∈ t
        · simp only [_jcopy, hv]
          rw [ih hkt, hv]
          simp [Option.or, jget_setk]
        · simp only [_jcopy, hv]
          rw [jget_jcopy_not_mem src t a hkt, jget_setk]
          simp [Option.or]
      | none =>
        by_cases hkt : a ∈ t
        · simp only [_jcopy, hv]
          rw [ih hkt, hv]
        · simp only [_jcopy, hv]
          rw [jget_jcopy_not_mem src t a hkt]
          simp [Option.or]
    · have hkt : k ∈ t := by
        rcases List.mem_cons.mp hk with h | h
        · exact absurd h.symm hak
        · exact h
      cases hv : jget src a with
      | some v =>
        simp only [_jcopy, hv]
        rw [ih hkt, jget_setk]
        simp [hak]
      | none => simp [_jcopy, hv, ih hkt]

theorem hasKey_jcopy (src : JObj R) (ks : List String) (dst : JObj R)
    (k : String) (h : hasKey (_jcopy src dst ks) k = true) :
    k ∈ ks ∨ hasKey dst k = true := by
  by_cases hk : k ∈ ks
  · exact Or.inl hk
  · right
    rwa [hasKey, jget_jcopy_not_mem src ks k hk dst] at h

/-- Python truthiness of a configuration value (`if v:`). -/
def truthy [Zero R] [DecidableEq R] : JVal R → Bool
  | .b x => x
  | .num x => decide (¬ x = 0)
  | .s x => !(x == "")
  | .obj o => !o.isEmpty
  | .arr a => !a.isEmpty

/-- Modelled from the spec: `j_deprecated` is imported from `deepmd.common`,
whose source is not part of this module; per the spec it is an ordered
deprecated-alias lookup — read `key` if present, otherwise the first present
deprecated candidate, otherwise fail with an error naming all candidate
keys. -/
def j_deprecated (jdata : JObj R) (key : String) (deprecated_key : List String) :
    Except PyErr (JVal R) :=
  match jget jdata key with
  | some v => .ok v
  | none =>
    match deprecated_key.findSome? (fun k => jget jdata k) with
    | some v => .ok v
    | none =>
      .error (.runtimeError
        ("must provide key " ++ key ++ " (deprecated candidates: "
          ++ String.intercalate ", " deprecated_key ++ ")"))

/-- `_nonsmth_descriptor`: fixed `type = "loc_frame"` plus an allow-list copy. -/
def _nonsmth_descriptor (jdata : JObj R) : JObj R :=
  _jcopy jdata (setk ([] : JObj R) "type" (.s "loc_frame"))
    ["sel_a", "sel_r", "rcut", "axis_rule"]

/-- `_smth_descriptor`: v0 → v1 transformation of the smooth descriptor.
Note the legacy quirk kept from the source: the presence test is on key
`"resnet_dt"` but the value read is `jdata["filter_resnet_dt"]`. -/
def _smth_descriptor (jdata : JObj R) : Except PyErr (JObj R) :=
  let d0 : JObj R :=
    match jget jdata "seed" with
    | some v => setk ([] : JObj R) "seed" v
    | none => ([] : JObj R)
  let d1 := setk d0 "type" (.s "se_a")
  match jget jdata "sel_a" with
  | none => .error (.keyError "sel_a")
  | some sel =>
  let d2 := _jcopy jdata (setk d1 "sel" sel) ["rcut"]
  match jget d2 "rcut" with
  | none => .error (.keyError "rcut")
  | some rcutv =>
  let d3 := setk d2 "rcut_smth" ((jget jdata "rcut_smth").getD rcutv)
  match jget jdata "filter_neuron" with
  | none => .error (.keyError "filter_neuron")
  | some fn =>
  let d4 := setk d3 "neuron" fn
  match j_deprecated jdata "axis_neuron" ["n_axis_neuron"] with
  | .error e => .error e
  | .ok an =>
  let d5 := setk (setk d4 "axis_neuron" an) "resnet_dt" (.b false)
  if hasKey jdata "resnet_dt" then
    match jget jdata "filter_resnet_dt" with
    | none => .error (.keyError "filter_resnet_dt")
    | some frd => .ok (setk d5 "resnet_dt" frd)
  else .ok d5

/-- `_fitting_net`: v0 → v1 transformation of the fitting net; `resnet_dt`
defaults to `True`, overridden first by `resnet_dt`, then by
`fitting_resnet_dt` (the later-checked key wins). -/
def _fitting_net (jdata : JObj R) : Except PyErr (JObj R) :=
  let d0 : JObj R :=
    match jget jdata "seed" with
    | some v => setk ([] : JObj R) "seed" v
    | none => ([] : JObj R)
  match j_deprecated jdata "fitting_neuron" ["n_neuron"] with
  | .error e => .error e
  | .ok nv =>
  let d1 := setk (setk d0 "neuron" nv) "resnet_dt" (.b true)
  let d2 :=
    match jget jdata "resnet_dt" with
    | some v => setk d1 "resnet_dt" v
    | none => d1
  let d3 :=
    match jget jdata "fitting_resnet_dt" with
    | some v => setk d2 "resnet_dt" v
    | none => d2
  .ok d3

/-- `_model`: descriptor (smooth or non-smooth, by truthiness of the
`use_smooth` value) plus the fitting net. -/
def _model [Zero R] [DecidableEq R] (jdata : JObj R) (smooth : JVal R) :
    Except PyErr (JObj R) :=
  match (if truthy smooth then _smth_descriptor jdata
         else .ok (_nonsmth_descriptor jdata)) with
  | .error e => .error e
  | .ok desc =>
  match _fitting_net jdata with
  | .error e => .error e
  | .ok fit =>
    .ok (setk (setk ([] : JObj R) "descriptor" (.obj desc)) "fitting_net" (.obj fit))

/-- `_learning_rate`: fixed `type = "exp"` plus an allow-list copy. -/
def _learning_rate (jdata : JObj R) : JObj R :=
  _jcopy jdata (setk ([] : JObj R) "type" (.s "exp"))
    ["decay_steps", "decay_rate", "start_lr"]

/-- The six loss prefactor keys handed to the allow-list copier. -/
def lossPrefKeys : List String :=
  ["start_pref_e", "limit_pref_e", "start_pref_f", "limit_pref_f",
   "start_pref_v", "limit_pref_v"]

/-- `_loss`: allow-list copy of the six prefactor keys (absent keys are
skipped by the copier), plus the per-atom-energy prefactors when present. -/
def _loss (jdata : JObj R) : JObj R :=
  let l0 := _jcopy jdata ([] : JObj R) lossPrefKeys
  let l1 :=
    match jget jdata "start_pref_ae" with
    | some v => setk l0 "start_pref_ae" v
    | none => l0
  match jget jdata "limit_pref_ae" with
  | some v => setk l1 "limit_pref_ae" v
  | none => l1

/-- `_training`: v0 → v1 transformation of the training section. -/
def _training [Zero R] [DecidableEq R] (jdata : JObj R) : Except PyErr (JObj R) :=
  let t0 : JObj R :=
    match jget jdata "seed" with
    | some v => setk ([] : JObj R) "seed" v
    | none => ([] : JObj R)
  let t1 := _jcopy jdata t0 ["systems", "set_prefix", "stop_batch", "batch_size"]
  let t2 := setk t1 "disp_file" (.s "lcurve.out")
  let t3 :=
    match jget jdata "disp_file" with
    | some v => setk t2 "disp_file" v
    | none => t2
  match jget jdata "disp_freq" with
  | none => .error (.keyError "disp_freq")
  | some v1 =>
  match jget jdata "numb_test" with
  | none => .error (.keyError "numb_test")
  | some v2 =>
  match jget jdata "save_freq" with
  | none => .error (.keyError "save_freq")
  | some v3 =>
  match jget jdata "save_ckpt" with
  | none => .error (.keyError "save_ckpt")
  | some v4 =>
  match jget jdata "disp_training" with
  | none => .error (.keyError "disp_training")
  | some v5 =>
  match jget jdata "time_training" with
  | none => .error (.keyError "time_training")
  | some v6 =>
  let t4 := setk (setk (setk (setk (setk (setk t3 "disp_freq" v1) "numb_test" v2)
    "save_freq" v3) "save_ckpt" v4) "disp_training" v5) "time_training" v6
  match jget jdata "profiling" with
  | none => .ok t4
  | some pv =>
    let t5 := setk t4 "profiling" pv
    if truthy pv then
      match jget jdata "profiling_file" with
      | none => .error (.keyError "profiling_file")
      | some pf => .ok (setk t5 "profiling_file" pf)
    else .ok t5

/-- The document built by `convert_input_v0_v1` before warning and dump:
reads `jdata["use_smooth"]` (argument of the `_model` call), then builds
the `model`, `learning_rate`, `loss` and `training` sections in order. -/
def v0v1_body [Zero R] [DecidableEq R] (jdata : JObj R) : Except PyErr (JObj R) :=
  match jget jdata "use_smooth" with
  | none => .error (.keyError "use_smooth")
  | some sm =>
  match _model jdata sm with
  | .error e => .error e
  | .ok m =>
  let o1 := setk (setk ([] : JObj R) "model" (.obj m))
    "learning_rate" (.obj (_learning_rate jdata))
  let o2 := setk o1 "loss" (.obj (_loss jdata))
  match _training jdata with
  | .error e => .error e
  | .ok tr => .ok (setk o2 "training" (.obj tr))

/-- `convert_input_v0_v1(jdata, warning, dump)`: builds a fresh v1 document
(the caller's document is never mutated), then emits the v0-deprecation
warning if requested, then dumps if requested. -/
def convert_input_v0_v1 [Zero R] [DecidableEq R] (jdata : JObj R)
    (warning : Bool) (dump : Option String) : StepOut R :=
  match v0v1_body jdata with
  | .error e => ⟨.error e, jdata, [], none⟩
  | .ok output =>
    ⟨.ok output, jdata,
      if warning then [Warn.v0v1 dump] else [],
      dump.map (fun p => (p, output))⟩

/-- `remove_decay_rate(jdata)`: when `learning_rate` holds `decay_rate`,
read `start_lr`, `training["stop_batch"]` and `decay_steps` (key errors in
that order), require the four values to be numbers (the numpy arithmetic
rejects others), then store `stop_lr` and drop `decay_rate`.  The
floating-point computation `np.exp(np.log(r) * (b / d)) * s` is the
parameter `f r s b d`; all mutations happen after every read, so a failing
call leaves the document unchanged. -/
def remove_decay_rate (f : R → R → R → R → R) (jdata : JObj R) :
    Except PyErr (JObj R) :=
  match jget jdata "learning_rate" with
  | none => .error (.keyError "learning_rate")
  | some (.obj lr) =>
    if hasKey lr "decay_rate" then
      match jget lr "decay_rate" with
      | none => .error (.keyError "decay_rate")
      | some drv =>
      match jget lr "start_lr" with
      | none => .error (.keyError "start_lr")
      | some slv =>
      match jget jdata "training" with
      | none => .error (.keyError "training")
      | some (.obj tr) =>
        match jget tr "stop_batch" with
        | none => .error (.keyError "stop_batch")
        | some sbv =>
        match jget lr "decay_steps" with
        | none => .error (.keyError "decay_steps")
        | some dsv =>
        match drv, slv, sbv, dsv with
        | .num dr, .num sl, .num sb, .num ds =>
          let lr1 := erasek (setk lr "stop_lr" (.num (f dr sl sb ds))) "decay_rate"
          .ok (setk jdata "learning_rate" (.obj lr1))
        | _, _, _, _ => .error (.typeError "unsupported operand")
      | some _ => .error (.typeError "value is not subscriptable")
    else .ok jdata
  | some _ => .error (.typeError "argument is not iterable")

/-- The v2 training-data allow-list of `convert_input_v1_v2`. -/
def tr_data_keys : List String :=
  ["systems", "set_prefix", "batch_size", "sys_prob", "auto_prob",
   "sys_weights", "auto_prob_style"]

/-- `convert_input_v1_v2(jdata, warning, dump)`: partitions `training` into
the data allow-list (nested as `training_data`) and the rest; fails before
mutating when `training` already holds `training_data`; installs the
restructured `training` into the document, then runs `remove_decay_rate`
(whose failure therefore leaves the training section already replaced),
then warns and dumps. -/
def convert_input_v1_v2 (f : R → R → R → R → R) (jdata : JObj R)
    (warning : Bool) (dump : Option String) : StepOut R :=
  match jget jdata "training" with
  | none => ⟨.error (.keyError "training"), jdata, [], none⟩
  | some (.obj tr_cfg) =>
    let tr_data_cfg := tr_cfg.filter (fun p => tr_data_keys.contains p.1)
    let new_tr_cfg0 := tr_cfg.filter (fun p => !tr_data_keys.contains p.1)
    let new_tr_cfg := setk new_tr_cfg0 "training_data" (.obj tr_data_cfg)
    if hasKey tr_cfg "training_data" then
      ⟨.error (.runtimeError
          "Both v1 (training/systems) and v2 (training/training_data) parameters are given."),
        jdata, [], none⟩
    else
      let jdata1 := setk jdata "training" (.obj new_tr_cfg)
      match remove_decay_rate f jdata1 with
      | .error e => ⟨.error e, jdata1, [], none⟩
      | .ok jdata2 =>
        ⟨.ok jdata2, jdata2,
          if warning then [Warn.v1v2 dump] else [],
          dump.map (fun p => (p, jdata2))⟩
  | some _ => ⟨.error (.attributeError "items"), jdata, [], none⟩

/-- `deprecate_numb_test(jdata, warning, dump)`: pop `training["numb_test"]`
(`KeyError` is swallowed; a non-mapping `training` value raises), warn only
when the pop succeeded, then dump. -/
def deprecate_numb_test (jdata : JObj R) (warning : Bool)
    (dump : Option String) : StepOut R :=
  match jget jdata "training" with
  | none =>
    ⟨.ok jdata, jdata, [], dump.map (fun p => (p, jdata))⟩
  | some (.obj tr) =>
    if hasKey tr "numb_test" then
      let j1 := setk jdata "training" (.obj (erasek tr "numb_test"))
      ⟨.ok j1, j1, if warning then [Warn.numbTest] else [],
        dump.map (fun p => (p, j1))⟩
    else
      ⟨.ok jdata, jdata, [], dump.map (fun p => (p, jdata))⟩
  | some (.arr _) =>
    ⟨.error (.typeError "list indices must be integers"), jdata, [], none⟩
  | some _ =>
    ⟨.error (.attributeError "pop"), jdata, [], none⟩

/-- `update_deepmd_input(jdata, warning, dump)`: detect v0 (no top-level
`model`), else v1 (`"systems" in jdata["training"].keys()` — read
unconditionally), else v2+, and chain the migrators; only the first stage
executed receives the caller's warning flag, only the last receives the
dump path.  In the v0 chain a fresh document is built, so the caller's
document is never mutated there. -/
def update_deepmd_input [Zero R] [DecidableEq R] (f : R → R → R → R → R)
    (jdata : JObj R) (warning : Bool) (dump : Option String) : StepOut R :=
  if !hasKey jdata "model" then
    let r1 := convert_input_v0_v1 jdata warning none
    match r1.ret with
    | .error e => ⟨.error e, jdata, r1.warns, none⟩
    | .ok j1 =>
      let r2 := convert_input_v1_v2 f j1 false none
      match r2.ret with
      | .error e => ⟨.error e, jdata, r1.warns ++ r2.warns, none⟩
      | .ok j2 =>
        let r3 := deprecate_numb_test j2 false dump
        ⟨r3.ret, jdata, r1.warns ++ r2.warns ++ r3.warns, r3.dumped⟩
  else
    match jget jdata "training" with
    | none => ⟨.error (.keyError "training"), jdata, [], none⟩
    | some (.obj tr) =>
      if hasKey tr "systems" then
        let r2 := convert_input_v1_v2 f jdata warning none
        match r2.ret with
        | .error e => ⟨.error e, r2.state, r2.warns, none⟩
        | .ok j2 =>
          let r3 := deprecate_numb_test j2 false dump
          ⟨r3.ret, r3.state, r2.warns ++ r3.warns, r3.dumped⟩
      else
        deprecate_numb_test jdata warning dump
    | some _ =>
      ⟨.error (.attributeError "keys"), jdata, [], none⟩

theorem option_or_none (o : Option (JVal R)) : o.or none = o := by
  cases o <;> rfl

theorem hasKey_nil (k : String) : hasKey ([] : JObj R) k = false := rfl

/-- C2: when the `training` sub-document already holds a `training_data`
key, `convert_input_v1_v2` raises the descriptive fatal `RuntimeError`, for
both values of the warning flag and any dump path, before any warning is
emitted, any file is written, or the document is mutated. -/
theorem convert_input_v1_v2_conflict_fatal (f : R → R → R → R → R)
    (jdata : JObj R) (warning : Bool) (dump : Option String) (tr : JObj R)
    (htr : jget jdata "training" = some (.obj tr))
    (hconf : hasKey tr "training_data" = true) :
    convert_input_v1_v2 f jdata warning dump =
      ⟨.error (.runtimeError
          "Both v1 (training/systems) and v2 (training/training_data) parameters are given."),
        jdata, [], none⟩ := by
  simp [convert_input_v1_v2, htr, hconf]

theorem convert_input_v1_v2_conflict_fatal_witness :
    hasKey ([("training_data", JVal.obj [])] : JObj Nat) "training_data" = true
    ∧ convert_input_v1_v2 (fun a _ _ _ => a)
        ([("training", JVal.obj [("training_data", JVal.obj [])])] : JObj Nat)
        true (some "out.json") =
      ⟨.error (.runtimeError
          "Both v1 (training/systems) and v2 (training/training_data) parameters are given."),
        [("training", JVal.obj [("training_data", JVal.obj [])])], [], none⟩ :=
  ⟨rfl,
    convert_input_v1_v2_conflict_fatal (fun a _ _ _ => a)
      [("training", JVal.obj [("training_data", JVal.obj [])])]
      true (some "out.json") [("training_data", JVal.obj [])] rfl rfl⟩

/-- C10: a document with a top-level `model` key but no top-level
`training` key makes `update_deepmd_input` fail with a key-lookup error
during version detection, before any migration or pruning runs (no
warnings, no dump, document untouched). -/
theorem update_deepmd_input_missing_training_keyerror [Zero R] [DecidableEq R]
    (f : R → R → R → R → R) (jdata : JObj R) (warning : Bool)
    (dump : Option String) (hm : hasKey jdata "model" = true)
    (ht : jget jdata "training" = none) :
    update_deepmd_input f jdata warning dump =
      ⟨.error (.keyError "training"), jdata, [], none⟩ := by
  simp [update_deepmd_input, hm, ht]

theorem update_deepmd_input_missing_training_keyerror_witness :
    hasKey ([("model", JVal.obj [])] : JObj Nat) "model" = true
    ∧ update_deepmd_input (fun a _ _ _ => a)
        ([("model", JVal.obj [])] : JObj Nat) true (some "out.json") =
      ⟨.error (.keyError "training"), [("model", JVal.obj [])], [], none⟩ :=
  ⟨rfl,
    update_deepmd_input_missing_training_keyerror (fun a _ _ _ => a)
      [("model", JVal.obj [])] true (some "out.json") rfl rfl⟩

/-- C9 counterexample: the pruner is not total — a document whose
`training` value is a string makes `deprecate_numb_test` raise (Python:
`"x".pop` has no such attribute), refuting "the pruner never fails". -/
theorem deprecate_numb_test_nonmapping_fails_cex :
    (deprecate_numb_test ([("training", JVal.s "x")] : JObj Nat) true none).ret
      = .error (.attributeError "pop") := rfl

/-- C9 (amended): the pruner is idempotent on the document state for every
input and the second application emits no warning; it never fails on
documents whose `training` entry is absent or is a mapping (a non-mapping
`training` value raises). -/
theorem deprecate_numb_test_idempotent (jdata : JObj R) (w1 w2 : Bool) :
    (deprecate_numb_test (deprecate_numb_test jdata w1 none).state w2 none).state
      = (deprecate_numb_test jdata w1 none).state
    ∧ (deprecate_numb_test (deprecate_numb_test jdata w1 none).state w2 none).warns = []
    ∧ (jget jdata "training" = none →
        deprecate_numb_test jdata w1 none = ⟨.ok jdata, jdata, [], none⟩)
    ∧ (∀ tr, jget jdata "training" = some (.obj tr) →
        (deprecate_numb_test jdata w1 none).ret
          = .ok (deprecate_numb_test jdata w1 none).state
        ∧ (deprecate_numb_test (deprecate_numb_test jdata w1 none).state w2 none).ret
          = .ok (deprecate_numb_test jdata w1 none).state) := by
  cases htr : jget jdata "training" with
  | none => simp [deprecate_numb_test, htr]
  | some v =>
    cases v with
    | obj tr =>
      by_cases hnt : hasKey tr "numb_test"
      · have h1 : jget (setk jdata "training" (.obj (erasek tr "numb_test"))) "training"
            = some (.obj (erasek tr "numb_test")) := by
          rw [jget_setk]; simp
        have h2 : hasKey (erasek tr "numb_test") "numb_test" = false := by
          rw [hasKey_erasek]; simp
        simp [deprecate_numb_test, htr, hnt, h1, h2]
      · simp [deprecate_numb_test, htr, hnt]
    | b x => simp [deprecate_numb_test, htr]
    | num x => simp [deprecate_numb_test, htr]
    | s x => simp [deprecate_numb_test, htr]
    | arr a => simp [deprecate_numb_test, htr]

theorem deprecate_numb_test_idempotent_witness :
    jget ([("training", JVal.obj [("numb_test", JVal.num (1 : Nat))])] : JObj Nat)
        "training" = some (.obj [("numb_test", JVal.num 1)])
    ∧ (deprecate_numb_test
        (deprecate_numb_test
          ([("training", JVal.obj [("numb_test", JVal.num (1 : Nat))])] : JObj Nat)
          true none).state true none).state
      = (deprecate_numb_test
          ([("training", JVal.obj [("numb_test", JVal.num (1 : Nat))])] : JObj Nat)
          true none).state
    ∧ (deprecate_numb_test
        ([("training", JVal.obj [("numb_test", JVal.num (1 : Nat))])] : JObj Nat)
        true none).ret
      = .ok (deprecate_numb_test
          ([("training", JVal.obj [("numb_test", JVal.num (1 : Nat))])] : JObj Nat)
          true none).state :=
  ⟨rfl,
    (deprecate_numb_test_idempotent
      [("training", JVal.obj [("numb_test", JVal.num 1)])] true true).1,
    ((deprecate_numb_test_idempotent
      [("training", JVal.obj [("numb_test", JVal.num 1)])] true true).2.2.2
      [("numb_test", JVal.num 1)] rfl).1⟩

/-- C4 counterexample: with every prefactor key absent, the v0 → v1 loss
transformation does not fail — it returns an empty loss section (the
allow-list copier silently skips absent keys), refuting "fails with an
error naming the missing key". -/
theorem loss_missing_pref_no_error_cex :
    _loss ([] : JObj Nat) = [] ∧ hasKey (_loss ([] : JObj Nat)) "start_pref_e" = false :=
  ⟨rfl, rfl⟩

/-- C4 (amended): each of the six prefactor keys is copied to the loss
output exactly when present in the source (absent keys are silently
skipped, no error and no default); `start_pref_ae` / `limit_pref_ae` are
copied exactly when present; no other key appears in the output. -/
theorem loss_copies_present_keys (jdata : JObj R) :
    (∀ k ∈ lossPrefKeys, jget (_loss jdata) k = jget jdata k)
    ∧ jget (_loss jdata) "start_pref_ae" = jget jdata "start_pref_ae"
    ∧ jget (_loss jdata) "limit_pref_ae" = jget jdata "limit_pref_ae"
    ∧ (∀ k, hasKey (_loss jdata) k = true →
        k ∈ lossPrefKeys ∨ k = "start_pref_ae" ∨ k = "limit_pref_ae") := by
  have hbase : ∀ k ∈ lossPrefKeys,
      jget (_jcopy jdata ([] : JObj R) lossPrefKeys) k = jget jdata k := by
    intro k hk
    rw [jget_jcopy_mem jdata lossPrefKeys k hk]
    exact option_or_none _
  have hb0 : ∀ k, hasKey (_jcopy jdata ([] : JObj R) lossPrefKeys) k = true →
      k ∈ lossPrefKeys := by
    intro k h
    rcases hasKey_jcopy jdata lossPrefKeys [] k h with h' | h'
    · exact h'
    · simp [hasKey_nil] at h'
  have hsnm : "start_pref_ae" ∉ lossPrefKeys := by decide
  have hlnm : "limit_pref_ae" ∉ lossPrefKeys := by decide
  refine ⟨?_, ?_, ?_, ?_⟩
  · intro k hk
    have h1 : ¬ "start_pref_ae" = k := by rintro rfl; exact absurd hk hsnm
    have h2 : ¬ "limit_pref_ae" = k := by rintro rfl; exact absurd hk hlnm
    unfold _loss
    cases ha : jget jdata "start_pref_ae" <;> cases hb : jget jdata "limit_pref_ae" <;>
      simp only [ha, hb, jget_setk, if_neg h1, if_neg h2] <;> exact hbase k hk
  · unfold _loss
    cases ha : jget jdata "start_pref_ae" <;> cases hb : jget jdata "limit_pref_ae" <;>
      simp only [ha, hb, jget_setk] <;>
      simp [ha, jget_jcopy_not_mem jdata lossPrefKeys _ hsnm, jget]
  · unfold _loss
    cases ha : jget jdata "start_pref_ae" <;> cases hb : jget jdata "limit_pref_ae" <;>
      simp only [ha, hb, jget_setk] <;>
      simp [hb, jget_jcopy_not_mem jdata lossPrefKeys _ hlnm, jget]
  · intro k h
    unfold _loss at h
    cases ha : jget jdata "start_pref_ae" <;> cases hb : jget jdata "limit_pref_ae" <;>
      simp only [ha, hb, hasKey_setk, Bool.or_eq_true, decide_eq_true_eq] at h
    · exact Or.inl (hb0 k h)
    · rcases h with h | h
      · exact Or.inr (Or.inr h.symm)
      · exact Or.inl (hb0 k h)
    · rcases h with h | h
      · exact Or.inr (Or.inl h.symm)
      · exact Or.inl (hb0 k h)
    · rcases h with h | h | h
      · exact Or.inr (Or.inr h.symm)
      · exact Or.inr (Or.inl h.symm)
      · exact Or.inl (hb0 k h)

theorem loss_copies_present_keys_witness :
    "start_pref_e" ∈ lossPrefKeys
    ∧ jget (_loss ([("start_pref_e", JVal.num (2 : Nat))] : JObj Nat)) "start_pref_e"
      = jget ([("start_pref_e", JVal.num (2 : Nat))] : JObj Nat) "start_pref_e" :=
  ⟨by decide,
    (loss_copies_present_keys [("start_pref_e", JVal.num 2)]).1
      "start_pref_e" (by decide)⟩

/-- C5: in the smooth-descriptor transformation, the output `resnet_dt` is
`False` when the source has no `resnet_dt` key; when the source does have a
`resnet_dt` key the output `resnet_dt` is the source's `filter_resnet_dt`
value (the presence test is on `resnet_dt`, the value read is
`filter_resnet_dt`). -/
theorem smth_descriptor_resnet_dt_coupling (jdata d : JObj R)
    (h : _smth_descriptor jdata = .ok d) :
    (hasKey jdata "resnet_dt" = false → jget d "resnet_dt" = some (.b false))
    ∧ (hasKey jdata "resnet_dt" = true →
        ∃ v, jget jdata "filter_resnet_dt" = some v ∧ jget d "resnet_dt" = some v) := by
  unfold _smth_descriptor at h
  simp only [] at h
  repeat' split at h
  all_goals first
    | exact Except.noConfusion h
    | (injection h with h; subst h)
  all_goals simp_all [jget_setk]

theorem smth_descriptor_resnet_dt_coupling_witness :
    hasKey ([("sel_a", JVal.arr []), ("rcut", JVal.num (6 : Nat)),
        ("filter_neuron", JVal.arr []), ("axis_neuron", JVal.num 4),
        ("resnet_dt", JVal.b false), ("filter_resnet_dt", JVal.b true)] : JObj Nat)
      "resnet_dt" = true
    ∧ ∃ v,
        jget ([("sel_a", JVal.arr []), ("rcut", JVal.num (6 : Nat)),
            ("filter_neuron", JVal.arr []), ("axis_neuron", JVal.num 4),
            ("resnet_dt", JVal.b false), ("filter_resnet_dt", JVal.b true)] : JObj Nat)
          "filter_resnet_dt" = some v
        ∧ jget ([("type", JVal.s "se_a"), ("sel", JVal.arr []), ("rcut", JVal.num (6 : Nat)),
            ("rcut_smth", JVal.num 6), ("neuron", JVal.arr []), ("axis_neuron", JVal.num 4),
            ("resnet_dt", JVal.b true)] : JObj Nat) "resnet_dt" = some v :=
  ⟨rfl,
    (smth_descriptor_resnet_dt_coupling
      [("sel_a", JVal.arr []), ("rcut", JVal.num 6), ("filter_neuron", JVal.arr []),
        ("axis_neuron", JVal.num 4), ("resnet_dt", JVal.b false),
        ("filter_resnet_dt", JVal.b true)]
      [("type", JVal.s "se_a"), ("sel", JVal.arr []), ("rcut", JVal.num 6),
        ("rcut_smth", JVal.num 6), ("neuron", JVal.arr []), ("axis_neuron", JVal.num 4),
        ("resnet_dt", JVal.b true)]
      rfl).2 rfl⟩

/-- C6: in the fitting-net transformation, the output `resnet_dt` is `True`
when the source has neither `resnet_dt` nor `fitting_resnet_dt`; it equals
the source's `resnet_dt` when only that key is present; and it equals the
source's `fitting_resnet_dt` whenever that key is present (the
later-checked key wins when both are present). -/
theorem fitting_net_resnet_dt_precedence (jdata d : JObj R)
    (h : _fitting_net jdata = .ok d) :
    (jget jdata "resnet_dt" = none → jget jdata "fitting_resnet_dt" = none →
        jget d "resnet_dt" = some (.b true))
    ∧ (∀ v, jget jdata "resnet_dt" = some v → jget jdata "fitting_resnet_dt" = none →
        jget d "resnet_dt" = some v)
    ∧ (∀ v, jget jdata "fitting_resnet_dt" = some v → jget d "resnet_dt" = some v) := by
  unfold _fitting_net at h
  simp only [] at h
  repeat' split at h
  all_goals first
    | exact Except.noConfusion h
    | (injection h with h; subst h)
  all_goals simp_all [jget_setk]

theorem fitting_net_resnet_dt_precedence_witness :
    jget ([("fitting_neuron", JVal.arr []), ("resnet_dt", JVal.b false),
        ("fitting_resnet_dt", JVal.b true)] : JObj Nat) "fitting_resnet_dt"
      = some (.b true)
    ∧ jget ([("neuron", JVal.arr []), ("resnet_dt", JVal.b true)] : JObj Nat)
        "resnet_dt" = some (.b true) :=
  ⟨rfl,
    (fitting_net_resnet_dt_precedence
      [("fitting_neuron", JVal.arr []), ("resnet_dt", JVal.b false),
        ("fitting_resnet_dt", JVal.b true)]
      [("neuron", JVal.arr []), ("resnet_dt", JVal.b true)]
      rfl).2.2 (.b true) rfl⟩

/-- C8: optional legacy fields are carried over exactly when present, with
the source's value, and no default is injected when absent: the `seed`
entry of the smooth-descriptor, fitting-net and training outputs equals the
source's `seed` lookup (present if and only if present in the source), and
likewise `profiling` in the training output. -/
theorem optional_fields_carried_iff_present [Zero R] [DecidableEq R]
    (jdata : JObj R) :
    (∀ d, _smth_descriptor jdata = .ok d → jget d "seed" = jget jdata "seed")
    ∧ (∀ d, _fitting_net jdata = .ok d → jget d "seed" = jget jdata "seed")
    ∧ (∀ d, _training jdata = .ok d →
        jget d "seed" = jget jdata "seed"
        ∧ jget d "profiling" = jget jdata "profiling") := by
  have hs1 : ∀ dst : JObj R, jget (_jcopy jdata dst ["rcut"]) "seed" = jget dst "seed" :=
    jget_jcopy_not_mem jdata _ _ (by decide)
  have hs2 : ∀ dst : JObj R,
      jget (_jcopy jdata dst ["systems", "set_prefix", "stop_batch", "batch_size"])
        "seed" = jget dst "seed" :=
    jget_jcopy_not_mem jdata _ _ (by decide)
  have hp2 : ∀ dst : JObj R,
      jget (_jcopy jdata dst ["systems", "set_prefix", "stop_batch", "batch_size"])
        "profiling" = jget dst "profiling" :=
    jget_jcopy_not_mem jdata _ _ (by decide)
  refine ⟨?_, ?_, ?_⟩
  · intro d h
    unfold _smth_descriptor at h
    simp only [] at h
    repeat' split at h
    all_goals first
      | exact Except.noConfusion h
      | (injection h with h; subst h)
    all_goals simp_all [jget_setk, jget, hs1]
  · intro d h
    unfold _fitting_net at h
    simp only [] at h
    repeat' split at h
    all_goals first
      | exact Except.noConfusion h
      | (injection h with h; subst h)
    all_goals simp_all [jget_setk, jget]
  · intro d h
    unfold _training at h
    simp only [] at h
    repeat' split at h
    all_goals first
      | exact Except.noConfusion h
      | (injection h with h; subst h)
    all_goals constructor
    all_goals simp_all [jget_setk, jget, hs2, hp2]

theorem optional_fields_carried_iff_present_witness :
    jget ([("seed", JVal.num (7 : Nat)), ("fitting_neuron", JVal.arr [])] : JObj Nat)
      "seed" = some (.num 7)
    ∧ jget ([("seed", JVal.num (7 : Nat)), ("neuron", JVal.arr []),
        ("resnet_dt", JVal.b true)] : JObj Nat) "seed"
      = jget ([("seed", JVal.num (7 : Nat)), ("fitting_neuron", JVal.arr [])] : JObj Nat)
          "seed" :=
  ⟨rfl,
    (optional_fields_carried_iff_present
      [("seed", JVal.num 7), ("fitting_neuron", JVal.arr [])]).2.1
      [("seed", JVal.num 7), ("neuron", JVal.arr []), ("resnet_dt", JVal.b true)]
      rfl⟩

/-- C7: with real numbers standing for the floats and the numpy expression
`np.exp(np.log(r) * (b / d)) * s` as the computation, whenever
`learning_rate` holds a positive `decay_rate`, `remove_decay_rate` stores
`stop_lr = decay_rate ^ (stop_batch / decay_steps) * start_lr` (real power)
in `learning_rate`, removes `decay_rate`, and leaves every other
learning-rate entry unchanged; when `decay_rate` is absent the document is
returned unchanged. -/
theorem remove_decay_rate_stop_lr_closed_form (j : JObj ℝ) :
    (∀ lr tr r s b d,
      jget j "learning_rate" = some (.obj lr) →
      jget lr "decay_rate" = some (.num r) →
      jget lr "start_lr" = some (.num s) →
      jget j "training" = some (.obj tr) →
      jget tr "stop_batch" = some (.num b) →
      jget lr "decay_steps" = some (.num d) →
      0 < r →
      remove_decay_rate (fun rr ss bb dd => Real.exp (Real.log rr * (bb / dd)) * ss) j
          = .ok (setk j "learning_rate"
              (.obj (erasek (setk lr "stop_lr" (.num (r ^ (b / d) * s))) "decay_rate")))
        ∧ jget (erasek (setk lr "stop_lr" (.num (r ^ (b / d) * s))) "decay_rate")
            "stop_lr" = some (.num (r ^ (b / d) * s))
        ∧ hasKey (erasek (setk lr "stop_lr" (.num (r ^ (b / d) * s))) "decay_rate")
            "decay_rate" = false
        ∧ (∀ k, ¬ k = "stop_lr" → ¬ k = "decay_rate" →
            jget (erasek (setk lr "stop_lr" (.num (r ^ (b / d) * s))) "decay_rate") k
              = jget lr k))
    ∧ (∀ lr, jget j "learning_rate" = some (.obj lr) →
        hasKey lr "decay_rate" = false →
        remove_decay_rate (fun rr ss bb dd => Real.exp (Real.log rr * (bb / dd)) * ss) j
          = .ok j) := by
  constructor
  · intro lr tr r s b d hlr hdr hsl htr hsb hds hr
    have hk : hasKey lr "decay_rate" = true := by simp [hasKey, hdr]
    have hpow : Real.exp (Real.log r * (b / d)) * s = r ^ (b / d) * s := by
      rw [← Real.rpow_def_of_pos hr]
    refine ⟨?_, ?_, ?_, ?_⟩
    · unfold remove_decay_rate
      simp only [hlr, hdr, hsl, htr, hsb, hds, hk, if_true, hpow]
    · rw [jget_erasek]
      simp [jget_setk]
    · rw [hasKey_erasek]
      simp
    · intro k h1 h2
      rw [jget_erasek, jget_setk]
      have h1' : ¬ "stop_lr" = k := fun hh => h1 hh.symm
      have h2' : ¬ "decay_rate" = k := fun hh => h2 hh.symm
      simp [h1', h2']
  · intro lr hlr hk
    unfold remove_decay_rate
    simp only [hlr, hk, Bool.false_eq_true, if_false]

theorem remove_decay_rate_stop_lr_closed_form_witness :
    (0 : ℝ) < 1/2
    ∧ remove_decay_rate (fun rr ss bb dd => Real.exp (Real.log rr * (bb / dd)) * ss)
        ([("learning_rate", JVal.obj [("decay_rate", JVal.num ((1:ℝ)/2)),
            ("start_lr", JVal.num ((1:ℝ)/100)), ("decay_steps", JVal.num (1000:ℝ))]),
          ("training", JVal.obj [("stop_batch", JVal.num (10000:ℝ))])] : JObj ℝ)
        = .ok (setk
            ([("learning_rate", JVal.obj [("decay_rate", JVal.num ((1:ℝ)/2)),
                ("start_lr", JVal.num ((1:ℝ)/100)), ("decay_steps", JVal.num (1000:ℝ))]),
              ("training", JVal.obj [("stop_batch", JVal.num (10000:ℝ))])] : JObj ℝ)
            "learning_rate"
            (.obj (erasek (setk
              [("decay_rate", JVal.num ((1:ℝ)/2)), ("start_lr", JVal.num ((1:ℝ)/100)),
                ("decay_steps", JVal.num (1000:ℝ))]
              "stop_lr" (JVal.num (((1:ℝ)/2) ^ ((10000:ℝ) / (1000:ℝ)) * ((1:ℝ)/100))))
              "decay_rate")))
    ∧ jget (erasek (setk
          [("decay_rate", JVal.num ((1:ℝ)/2)), ("start_lr", JVal.num ((1:ℝ)/100)),
            ("decay_steps", JVal.num (1000:ℝ))]
          "stop_lr" (JVal.num (((1:ℝ)/2) ^ ((10000:ℝ) / (1000:ℝ)) * ((1:ℝ)/100))))
          "decay_rate") "stop_lr"
        = some (JVal.num (((1:ℝ)/2) ^ ((10000:ℝ) / (1000:ℝ)) * ((1:ℝ)/100)))
    ∧ hasKey (erasek (setk
          [("decay_rate", JVal.num ((1:ℝ)/2)), ("start_lr", JVal.num ((1:ℝ)/100)),
            ("decay_steps", JVal.num (1000:ℝ))]
          "stop_lr" (JVal.num (((1:ℝ)/2) ^ ((10000:ℝ) / (1000:ℝ)) * ((1:ℝ)/100))))
          "decay_rate") "decay_rate" = false := by
  have hr : (0 : ℝ) < 1/2 := by norm_num
  have h := (remove_decay_rate_stop_lr_closed_form
    [("learning_rate", JVal.obj [("decay_rate", JVal.num ((1:ℝ)/2)),
        ("start_lr", JVal.num ((1:ℝ)/100)), ("decay_steps", JVal.num (1000:ℝ))]),
      ("training", JVal.obj [("stop_batch", JVal.num (10000:ℝ))])]).1
    [("decay_rate", JVal.num ((1:ℝ)/2)), ("start_lr", JVal.num ((1:ℝ)/100)),
      ("decay_steps", JVal.num (1000:ℝ))]
    [("stop_batch", JVal.num (10000:ℝ))]
    ((1:ℝ)/2) ((1:ℝ)/100) (10000:ℝ) (1000:ℝ)
    rfl rfl rfl rfl rfl rfl hr
  exact ⟨hr, h.1, h.2.1, h.2.2.1⟩

/-- C3 counterexample: a v1 document whose `learning_rate` has `decay_rate`
but no `start_lr` makes `convert_input_v1_v2` fail inside
`remove_decay_rate`, yet the caller's document is not in its pre-call
state: its `training` section has already been replaced by the
restructured one. -/
theorem convert_input_v1_v2_partial_mutation_cex :
    (convert_input_v1_v2 (fun a _ _ _ => a)
        ([("training", JVal.obj [("systems", JVal.arr [])]),
          ("learning_rate", JVal.obj [("decay_rate", JVal.num (1 : Nat))])] : JObj Nat)
        true none).ret = .error (.keyError "start_lr")
    ∧ ¬ (convert_input_v1_v2 (fun a _ _ _ => a)
        ([("training", JVal.obj [("systems", JVal.arr [])]),
          ("learning_rate", JVal.obj [("decay_rate", JVal.num (1 : Nat))])] : JObj Nat)
        true none).state
      = [("training", JVal.obj [("systems", JVal.arr [])]),
          ("learning_rate", JVal.obj [("decay_rate", JVal.num (1 : Nat))])] := by
  constructor
  · rfl
  · intro h
    have h2 : some (JVal.obj ([("training_data", JVal.obj [("systems", JVal.arr [])])] : JObj Nat))
        = some (JVal.obj ([("systems", JVal.arr [])] : JObj Nat)) :=
      calc
        some (JVal.obj ([("training_data", JVal.obj [("systems", JVal.arr [])])] : JObj Nat))
            = jget (convert_input_v1_v2 (fun a _ _ _ => a)
                ([("training", JVal.obj [("systems", JVal.arr [])]),
                  ("learning_rate", JVal.obj [("decay_rate", JVal.num (1 : Nat))])] : JObj Nat)
                true none).state "training" := rfl
        _ = jget ([("training", JVal.obj [("systems", JVal.arr [])]),
              ("learning_rate", JVal.obj [("decay_rate", JVal.num (1 : Nat))])] : JObj Nat)
              "training" := by rw [h]
        _ = some (JVal.obj ([("systems", JVal.arr [])] : JObj Nat)) := rfl
    simp at h2

/-- C3 (amended): if a migrator fails mid-stage the whole call fails and no
document is returned, but the caller's document is not necessarily in its
pre-call state: when `convert_input_v1_v2` fails inside `remove_decay_rate`
(here: `decay_rate` present, `start_lr` missing), the `training` section
has already been replaced by its restructured, `training_data`-nested form;
no warning is emitted and no dump is written. -/
theorem convert_input_v1_v2_fail_leaves_restructured_training
    (f : R → R → R → R → R) (jdata : JObj R) (warning : Bool)
    (dump : Option String) (tr lr : JObj R)
    (htr : jget jdata "training" = some (.obj tr))
    (hnc : hasKey tr "training_data" = false)
    (hlr : jget jdata "learning_rate" = some (.obj lr))
    (hdr : hasKey lr "decay_rate" = true)
    (hsl : jget lr "start_lr" = none) :
    convert_input_v1_v2 f jdata warning dump =
      ⟨.error (.keyError "start_lr"),
        setk jdata "training"
          (.obj (setk (tr.filter (fun p => !(tr_data_keys.contains p.1)))
            "training_data" (.obj (tr.filter (fun p => tr_data_keys.contains p.1))))),
        [], none⟩ := by
  obtain ⟨drv, hdrv⟩ : ∃ v, jget lr "decay_rate" = some v := by
    cases hj : jget lr "decay_rate" with
    | none => rw [hasKey, hj] at hdr; simp at hdr
    | some v => exact ⟨v, rfl⟩
  have hlr1 : jget (setk jdata "training"
      (.obj (setk (tr.filter (fun p => !(tr_data_keys.contains p.1)))
        "training_data" (.obj (tr.filter (fun p => tr_data_keys.contains p.1))))))
      "learning_rate" = some (.obj lr) := by
    rw [jget_setk]
    simpa using hlr
  unfold convert_input_v1_v2
  simp only [htr, hnc, Bool.false_eq_true, if_false]
  unfold remove_decay_rate
  simp only [hlr1, hdr, hdrv, hsl, if_true]

theorem convert_input_v1_v2_fail_leaves_restructured_training_witness :
    convert_input_v1_v2 (fun (a : Nat) _ _ _ => a)
        [("training", JVal.obj [("systems", JVal.arr [])]),
          ("learning_rate", JVal.obj [("decay_rate", JVal.num 1)])] true (some "o") =
      ⟨.error (.keyError "start_lr"),
        setk [("training", JVal.obj [("systems", JVal.arr [])]),
            ("learning_rate", JVal.obj [("decay_rate", JVal.num 1)])] "training"
          (.obj (setk (([("systems", JVal.arr [])] : JObj Nat).filter
              (fun p => !(tr_data_keys.contains p.1)))
            "training_data" (.obj (([("systems", JVal.arr [])] : JObj Nat).filter
              (fun p => tr_data_keys.contains p.1))))),
        [], none⟩ :=
  convert_input_v1_v2_fail_leaves_restructured_training
    (fun (a : Nat) _ _ _ => a)
    [("training", JVal.obj [("systems", JVal.arr [])]),
      ("learning_rate", JVal.obj [("decay_rate", JVal.num 1)])]
    true (some "o") [("systems", JVal.arr [])] [("decay_rate", JVal.num 1)]
    rfl rfl rfl rfl rfl

theorem warns_convert_v0v1 [Zero R] [DecidableEq R] (jdata : JObj R) (w : Bool)
    (dmp : Option String) :
    (convert_input_v0_v1 jdata w dmp).warns = []
    ∨ (convert_input_v0_v1 jdata w dmp).warns = [Warn.v0v1 dmp] := by
  unfold convert_input_v0_v1
  cases v0v1_body jdata <;> cases w <;> simp

theorem warns_convert_v1v2 (f : R → R → R → R → R) (jdata : JObj R) (w : Bool)
    (dmp : Option String) :
    (convert_input_v1_v2 f jdata w dmp).warns = []
    ∨ (convert_input_v1_v2 f jdata w dmp).warns = [Warn.v1v2 dmp] := by
  unfold convert_input_v1_v2
  simp only []
  repeat' split
  all_goals cases w <;> simp

theorem warns_convert_v1v2_false (f : R → R → R → R → R) (jdata : JObj R)
    (dmp : Option String) :
    (convert_input_v1_v2 f jdata false dmp).warns = [] := by
  unfold convert_input_v1_v2
  simp only []
  repeat' split
  all_goals simp_all

theorem warns_deprecate (jdata : JObj R) (w : Bool) (dmp : Option String) :
    (deprecate_numb_test jdata w dmp).warns = []
    ∨ (deprecate_numb_test jdata w dmp).warns = [Warn.numbTest] := by
  unfold deprecate_numb_test
  repeat' split
  all_goals cases w <;> simp

theorem warns_deprecate_false (jdata : JObj R) (dmp : Option String) :
    (deprecate_numb_test jdata false dmp).warns = [] := by
  unfold deprecate_numb_test
  repeat' split
  all_goals simp_all

/-- C1: with warnings requested, `update_deepmd_input` emits at most one
deprecation warning across the whole migration chain, and it comes from the
first stage actually executed: a v0-detected input (no top-level `model`)
can warn only with the v0-to-v1 warning, a v1-detected input only with the
v1-to-v2 warning, a v2-detected input only with the pruner's warning. -/
theorem update_deepmd_input_single_warning [Zero R] [DecidableEq R]
    (f : R → R → R → R → R) (jdata : JObj R) (dump : Option String) :
    (update_deepmd_input f jdata true dump).warns.length ≤ 1
    ∧ (hasKey jdata "model" = false →
        ∀ w ∈ (update_deepmd_input f jdata true dump).warns, w = Warn.v0v1 none)
    ∧ (∀ tr, hasKey jdata "model" = true →
        jget jdata "training" = some (.obj tr) → hasKey tr "systems" = true →
        ∀ w ∈ (update_deepmd_input f jdata true dump).warns, w = Warn.v1v2 none)
    ∧ (∀ tr, hasKey jdata "model" = true →
        jget jdata "training" = some (.obj tr) → hasKey tr "systems" = false →
        ∀ w ∈ (update_deepmd_input f jdata true dump).warns, w = Warn.numbTest) := by
  refine ⟨?_, ?_, ?_, ?_⟩
  · rcases warns_convert_v0v1 jdata true (none : Option String) with h01 | h01 <;>
    rcases warns_convert_v1v2 f jdata true (none : Option String) with h12 | h12 <;>
    rcases warns_deprecate jdata true dump with hdp | hdp <;>
    · unfold update_deepmd_input
      simp only []
      repeat' split
      all_goals simp_all [warns_convert_v1v2_false, warns_deprecate_false]
  · intro hm w hw
    rcases warns_convert_v0v1 jdata true (none : Option String) with h01 | h01 <;>
    · unfold update_deepmd_input at hw
      simp only [hm] at hw
      repeat' split at hw
      all_goals simp_all [warns_convert_v1v2_false, warns_deprecate_false]
  · intro tr hm htr hs w hw
    rcases warns_convert_v1v2 f jdata true (none : Option String) with h12 | h12 <;>
    · unfold update_deepmd_input at hw
      simp only [hm, htr] at hw
      repeat' split at hw
      all_goals simp_all [warns_convert_v1v2_false, warns_deprecate_false]
  · intro tr hm htr hs w hw
    rcases warns_deprecate jdata true dump with hdp | hdp <;>
    · unfold update_deepmd_input at hw
      simp only [hm, htr] at hw
      repeat' split at hw
      all_goals simp_all [warns_convert_v1v2_false, warns_deprecate_false]

theorem update_deepmd_input_single_warning_witness :
    hasKey ([("use_smooth", JVal.b false), ("fitting_neuron", JVal.arr []),
        ("disp_freq", JVal.num (1 : Nat)), ("numb_test", JVal.num 1),
        ("save_freq", JVal.num 1), ("save_ckpt", JVal.s "c"),
        ("disp_training", JVal.b true), ("time_training", JVal.b true)] : JObj Nat)
      "model" = false
    ∧ (update_deepmd_input (fun (a : Nat) _ _ _ => a)
        [("use_smooth", JVal.b false), ("fitting_neuron", JVal.arr []),
          ("disp_freq", JVal.num 1), ("numb_test", JVal.num 1),
          ("save_freq", JVal.num 1), ("save_ckpt", JVal.s "c"),
          ("disp_training", JVal.b true), ("time_training", JVal.b true)]
        true none).warns.length ≤ 1
    ∧ ∀ w ∈ (update_deepmd_input (fun (a : Nat) _ _ _ => a)
        [("use_smooth", JVal.b false), ("fitting_neuron", JVal.arr []),
          ("disp_freq", JVal.num 1), ("numb_test", JVal.num 1),
          ("save_freq", JVal.num 1), ("save_ckpt", JVal.s "c"),
          ("disp_training", JVal.b true), ("time_training", JVal.b true)]
        true none).warns, w = Warn.v0v1 none :=
  ⟨rfl,
    (update_deepmd_input_single_warning (fun (a : Nat) _ _ _ => a)
      [("use_smooth", JVal.b false), ("fitting_neuron", JVal.arr []),
        ("disp_freq", JVal.num 1), ("numb_test", JVal.num 1),
        ("save_freq", JVal.num 1), ("save_ckpt", JVal.s "c"),
        ("disp_training", JVal.b true), ("time_training", JVal.b true)] none).1,
    (update_deepmd_input_single_warning (fun (a : Nat) _ _ _ => a)
      [("use_smooth", JVal.b false), ("fitting_neuron", JVal.arr []),
        ("disp_freq", JVal.num 1), ("numb_test", JVal.num 1),
        ("save_freq", JVal.num 1), ("save_ckpt", JVal.s "c"),
        ("disp_training", JVal.b true), ("time_training", JVal.b true)] none).2.1 rfl⟩

end Compat
